import Mathlib

/-!
Shallow embedding of the conversational analytics assistant in
`src/final.py` (Query Executor, Chart Generator, Agent Loop), together with
theorems settling the specification claims about it.

Conventions used throughout:
* Python dicts with a fixed key set are structures; a key that is absent or
  bound to Python `None` is modelled as `none`.
* External capabilities (the DuckDB engine, the hosted language model, the
  execution of generated Python code) are oracles passed as function
  parameters.
* Machine-level aspects that the claims do not touch (stdout printing,
  wall-clock time) are omitted.
-/

deriving instance DecidableEq for Except

namespace AgenticDemo

/-! ## Executable models of the Python string primitives used by the code

`str.strip` and `str.replace` are given structurally recursive definitions
over the character list so that concrete runs evaluate inside the kernel. -/

/-- Does `pat` match the front of the character list? -/
def leadMatch : List Char → List Char → Bool
  | [], _ => true
  | _ :: _, [] => false
  | p :: ps, c :: cs => p = c && leadMatch ps cs

/-- Fuelled core of Python `str.replace`: replace non-overlapping
occurrences of `pat` left to right. The fuel is the length of the subject,
enough for any non-empty pattern. -/
def replaceCharsAux (pat rep : List Char) : Nat → List Char → List Char
  | 0, s => s
  | _, [] => []
  | n + 1, c :: cs =>
      if leadMatch pat (c :: cs) then
        rep ++ replaceCharsAux pat rep n (cs.drop (pat.length - 1))
      else
        c :: replaceCharsAux pat rep n cs

/-- Python `s.replace(pat, rep)` for a non-empty pattern. -/
def pyReplace (s pat rep : String) : String :=
  ⟨replaceCharsAux pat.data rep.data s.data.length s.data⟩

/-- Python `str.strip()`: drop leading and trailing whitespace. -/
def pyStrip (s : String) : String :=
  ⟨((s.data.dropWhile Char.isWhitespace).reverse.dropWhile
      Char.isWhitespace).reverse⟩

/-! ## Data model: query results (final.py, execute_sql_query) -/

/-- A scalar cell value of a result row. -/
inductive Value where
  | str (s : String)
  | int (n : Int)
  | null
deriving Repr, DecidableEq

/-- A column descriptor as found in the DB-API cursor `description`
(`d[0]` is the column name). -/
structure ColDesc where
  name : String
deriving Repr, DecidableEq

/-- What the DuckDB cursor yields for one executed statement:
`description` (None for statements with no result set) and the full row
stream that `fetchmany` draws from. -/
structure QueryReturn where
  description : Option (List ColDesc)
  rows : List (List Value)
deriving Repr, DecidableEq

/-- The DuckDB engine as an oracle: a SQL string either executes, yielding a
cursor result, or raises, yielding an error message. -/
def DbExec : Type := String → Except String QueryReturn

/-- The `result_df` payload of a successful `execute_sql_query` call:
`{"columns": ..., "rows": ...}`. -/
structure SqlSuccess where
  columns : List String
  rows : List (List Value)
deriving Repr, DecidableEq

/-- The dict returned by `execute_sql_query`: either
`{"result_df": {...}}` or `{"error": msg}`. -/
inductive SqlResult where
  | ok (result_df : SqlSuccess)
  | error (msg : String)
deriving Repr, DecidableEq

/-- Python truthiness test `not sql_query` for an optional string argument:
true exactly for `None` and the empty string (whitespace is truthy). -/
def pyFalsyStr : Option String → Bool
  | none => true
  | some s => s.isEmpty

/-- The `try` block of `execute_sql_query` (final.py lines 137-146): connect,
execute, project column names from the cursor description, fetch at most
1000 rows, and wrap an engine exception into an error dict. -/
def runSql (db : DbExec) (sql_query : String) : SqlResult :=
  match db sql_query with
  | .ok ret =>
      .ok { columns := (ret.description.getD []).map (fun d => d.name),
            rows := ret.rows.take 1000 }
  | .error e => .error ("Error executing SQL query: " ++ e)

/-- Model of `execute_sql_query` (final.py lines 133-146): guard `if not sql_query`
returning `{"error": "No SQL query provided"}`, otherwise run the statement
against the engine. -/
def execute_sql_query (db : DbExec) (sql_query : Option String) : SqlResult :=
  if pyFalsyStr sql_query then .error "No SQL query provided"
  else runSql db (sql_query.getD "")

/-- The class of inputs quantified over by the empty-query claim, following
its words: empty string, whitespace-only string, or missing argument. -/
def specBlankOrAbsent : Option String → Bool
  | none => true
  | some s => (pyStrip s).isEmpty

/-! ## Chart Generator (final.py, generate_visualisation and
execute_visualisation_code) -/

/-- A plotly figure object, reduced to the two serialisations the code
persists: `fig.to_image(format="png")` and `fig.to_json()`. -/
structure Fig where
  png : String
  json : String
deriving Repr, DecidableEq

/-- Outcome of `exec`-ing a snippet of generated code in the seeded local
namespace: either the snippet raised (with the exception's `str`), or it
finished and `local_ns.get("fig")` is the given optional figure. -/
inductive ExecOutcome where
  | raised (msg : String)
  | finished (fig : Option Fig)
deriving Repr, DecidableEq

/-- Execution of generated Python code as an oracle: from the cleaned code
and the dataframe rebuilt from the SQL result, the outcome. -/
def CodeExec : Type := String → SqlSuccess → ExecOutcome

/-- Ambient state threaded through the Chart Generator: `uuid.uuid4()` is
modelled as a fresh-identifier supply indexed by `nextId` (capturing that
every draw is distinct), and the filesystem as an association list from
path to contents, newest write first. -/
structure VizState where
  nextId : Nat
  fs : List (String × String)
deriving Repr, DecidableEq

/-- The dict returned by `generate_visualisation` and
`execute_visualisation_code`; absent keys and keys bound to `None` are both
`none`. The `uuid` field carries the fresh-supply index of the identifier. -/
structure VizResult where
  success : Bool
  uuid : Option Nat
  code : Option String
  fig_path : Option String
  error : Option String
  traceback : Option String
deriving Repr, DecidableEq

/-- The output directory `OUTPUT_DIR` (final.py line 29). -/
def OUTPUT_DIR : String := "visualisation_outputs"

/-- Rebuilding the dataframe from the tool-level SQL result
(`pd.DataFrame(sql_result["result_df"]["rows"], ...)`, final.py lines
42-45): subscripting Python `None` raises a `TypeError`, subscripting an
error dict raises a `KeyError`; both are caught by the surrounding `try`. -/
def dfOf : Option SqlResult → Except String SqlSuccess
  | none => .error "'NoneType' object is not subscriptable"
  | some (.error _) => .error "'result_df'"
  | some (.ok r) => .ok r

/-- Model of `traceback.format_exc()` for an exception, modelled as a string built
from its message. -/
def tracebackOf (msg : String) : String :=
  "Traceback (most recent call last): " ++ msg

/-- Code cleanup before execution (final.py line 50): strip markdown fences
and surrounding whitespace. -/
def cleanCode (c : String) : String :=
  pyStrip (pyReplace (pyReplace c "```python" "") "```" "")

/-- The image path for a fresh identifier
(`os.path.join(OUTPUT_DIR, f"{result_id}.png")`). -/
def imgPath (id : Nat) : String :=
  OUTPUT_DIR ++ "/" ++ Nat.repr id ++ ".png"

/-- The chart-description path for a fresh identifier
(`os.path.join(OUTPUT_DIR, f"{result_id}_fig.json")`). -/
def figJsonPath (id : Nat) : String :=
  OUTPUT_DIR ++ "/" ++ Nat.repr id ++ "_fig.json"

/-- Model of `generate_visualisation` (final.py lines 36-81): draw a fresh id,
rebuild the dataframe, clean and execute the generated code, and on success
write the PNG and the JSON description before returning; every exception in
the `try` block becomes a failure dict with `fig_path = None`. -/
def generate_visualisation (execCode : CodeExec) (st : VizState)
    (sql_result : Option SqlResult) (python_code : String) :
    VizResult × VizState :=
  let result_id := st.nextId
  let st1 : VizState := { st with nextId := st.nextId + 1 }
  match dfOf sql_result with
  | .error e =>
      ({ success := false, uuid := none, code := none, fig_path := none,
         error := some e, traceback := some (tracebackOf e) }, st1)
  | .ok df =>
      let code := cleanCode python_code
      match execCode code df with
      | .raised e =>
          ({ success := false, uuid := none, code := none, fig_path := none,
             error := some e, traceback := some (tracebackOf e) }, st1)
      | .finished none =>
          ({ success := false, uuid := none, code := none, fig_path := none,
             error := some "No `fig` variable created.", traceback := none },
           st1)
      | .finished (some fig) =>
          let st2 : VizState :=
            { st1 with
              fs := (figJsonPath result_id, fig.json)
                      :: (imgPath result_id, fig.png) :: st1.fs }
          ({ success := true, uuid := some result_id,
             code := some code, fig_path := some (figJsonPath result_id),
             error := none, traceback := none }, st2)

/-- One message of the code-generation side conversation. -/
structure ChatMsg where
  role : String
  content : String
deriving Repr, DecidableEq

/-- The code-generating model as an oracle: from the side conversation, the
raw text of its reply. -/
def CodeGen : Type := List ChatMsg → String

/-- Serialisation of a cell value for `json.dumps`. -/
def dumpValue : Value → String
  | .str s => "\x22" ++ s ++ "\x22"
  | .int n => n.repr
  | .null => "null"

/-- Serialisation of a row for `json.dumps`. -/
def dumpRow (r : List Value) : String :=
  "[" ++ String.intercalate ", " (r.map dumpValue) ++ "]"

/-- Serialisation of the tool-level SQL result dict for `json.dumps`
(Python `None` serialises as `null`). -/
def dumpsSqlResult : Option SqlResult → String
  | none => "null"
  | some (.error e) => "\x7b\x22error\x22: \x22" ++ e ++ "\x22\x7d"
  | some (.ok r) =>
      "\x7b\x22result_df\x22: \x7b\x22columns\x22: ["
        ++ String.intercalate ", " (r.columns.map (fun c => "\x22" ++ c ++ "\x22"))
        ++ "], \x22rows\x22: ["
        ++ String.intercalate ", " (r.rows.map dumpRow) ++ "]\x7d\x7d"

/-- The initial prompt of `execute_visualisation_code` (final.py lines
150-163), embedding the serialised SQL result. The template hole
`\x7b???\x7d` in the task sentence is modelled from the spec: the snippet is to
fulfil the caller's natural-language charting instructions. -/
def vizPrompt (instructions : String) (sql_result : Option SqlResult) : String :=
  "Given the following DuckDB SQL query result as a JSON-serializable dict: "
    ++ dumpsSqlResult sql_result
    ++ " Write a self-contained Python snippet that: " ++ instructions
    ++ " Rules: Data is already in a pandas DataFrame named `df`."
    ++ " Assign chart to variable `fig`. Avoid fig.show()."
    ++ " Allowed libraries: pandas, plotly, matplotlib."
    ++ " Style: transparent background, white font. ONLY return the code."

/-- The corrective message appended after a failed attempt (final.py lines
182-185). -/
def retryMsg (result : VizResult) (code : String) : ChatMsg :=
  { role := "user",
    content := "Your code failed with error: " ++ result.error.getD ""
                 ++ ". Fix it. Code was: " ++ code }

/-- The `while tries < 3` loop of `execute_visualisation_code` (final.py
lines 165-188), as a recursion on the number of retries still allowed after
the current attempt (the source enters with `tries = 0`, i.e. 2 retries
left). Besides the returned result and state, the final side conversation
and the number of attempts made are exposed. Each attempt asks the code
model, strips the reply, runs `generate_visualisation`, returns on success,
and otherwise appends the corrective message (also after the last failed
attempt, as the source does before the loop guard fails). -/
def vizLoop (gen : CodeGen) (execCode : CodeExec)
    (sql_result : Option SqlResult) :
    Nat → List ChatMsg → VizState → VizResult × VizState × List ChatMsg × Nat
  | 0, messages, st =>
      let code := pyStrip (gen messages)
      let p := generate_visualisation execCode st sql_result code
      if p.1.success then (p.1, p.2, messages, 1)
      else (p.1, p.2, messages ++ [retryMsg p.1 code], 1)
  | (r + 1), messages, st =>
      let code := pyStrip (gen messages)
      let p := generate_visualisation execCode st sql_result code
      if p.1.success then (p.1, p.2, messages, 1)
      else
        let q := vizLoop gen execCode sql_result r
                   (messages ++ [retryMsg p.1 code]) p.2
        (q.1, q.2.1, q.2.2.1, q.2.2.2 + 1)

/-- Model of `execute_visualisation_code` (final.py lines 148-188): build the prompt
as the single starting message and run the attempt loop with 3 attempts in
total. -/
def execute_visualisation_code (gen : CodeGen) (execCode : CodeExec)
    (st : VizState) (instructions : String) (sql_result : Option SqlResult) :
    VizResult × VizState :=
  let q := vizLoop gen execCode sql_result 2
             [{ role := "user", content := vizPrompt instructions sql_result }] st
  (q.1, q.2.1)

/-! ## Evaluation scope of generated code (final.py lines 47-51) -/

/-- The names bound in the `local_ns` dict seeded for the generated code
(final.py line 47). -/
def vizLocalNames : List String := ["pd", "df", "px", "go"]

/-- A representative subset of the names in CPython's builtins module; the
membership facts used below (`open`, `__import__`) are what matter, not
completeness. `open` grants filesystem access and `__import__` grants
module (hence network) access. -/
def pythonBuiltinNames : List String :=
  ["open", "__import__", "eval", "exec", "compile", "input", "print",
   "len", "range", "getattr", "setattr", "globals", "locals", "vars"]

/-- The bare names resolvable by code run under
`exec(code, globals, locals)`, per CPython semantics: the locals, the
globals, and — because `exec` inserts a `__builtins__` binding into a
globals dict that lacks one — the members of the builtins module. -/
def execScope (globalNames localNames : List String) : List String :=
  if globalNames.contains "__builtins__" then localNames ++ globalNames
  else localNames ++ globalNames ++ pythonBuiltinNames

/-! ## Agent Loop (final.py, main_agent) -/

/-- The parsed JSON argument payload of a tool invocation request, reduced
to the fields the dispatch code reads (`args.get("sql_query")` and the
instruction string for the chart tool). -/
structure ToolArgs where
  sql_query : Option String
  instructions : Option String
deriving Repr, DecidableEq

/-- The `function` member of a tool call object: a name and the (already
parsed) argument payload. -/
structure ToolCallFn where
  name : String
  arguments : ToolArgs
deriving Repr, DecidableEq

/-- A tool invocation request produced by the model; `function` may be
absent (`call.function` tested for truthiness at final.py line 236). -/
structure ToolCall where
  id : String
  function : Option ToolCallFn
deriving Repr, DecidableEq

/-- An assistant message returned by the hosted model; `tool_calls` both
absent and empty are modelled as `[]` (both are falsy at final.py
line 234). -/
structure ModelMsg where
  content : Option String
  tool_calls : List ToolCall
deriving Repr, DecidableEq

/-- A message of the main conversation transcript. -/
inductive Msg where
  | system (content : String)
  | user (content : String)
  | assistant (m : ModelMsg)
  | tool (tool_call_id : String) (content : String)
deriving Repr, DecidableEq

/-- The hosted chat model as an oracle: from the transcript, the next
assistant message. -/
def LLM : Type := List Msg → ModelMsg

/-- Modelled from the spec: the template hole at final.py line 259 extracts
the natural-language charting instruction string from the tool-call
arguments ("a visualization tool taking a natural-language instruction
string"). -/
def argsInstructions (a : ToolArgs) : String := a.instructions.getD ""

/-- Serialisation of the chart outcome dict for `json.dumps` at final.py
line 265. -/
def dumpsVizResult (v : VizResult) : String :=
  "\x7b\x22success\x22: " ++ (if v.success then "true" else "false")
    ++ ", \x22error\x22: " ++ (match v.error with
        | none => "null"
        | some e => "\x22" ++ e ++ "\x22")
    ++ ", \x22fig_path\x22: " ++ (match v.fig_path with
        | none => "null"
        | some p => "\x22" ++ p ++ "\x22") ++ "\x7d"

/-- The turn output dict assembled at final.py lines 273-277. The value
templates are holes there; modelled from the spec (§6): `insights` is the
model's free text, `result_df` the retained Query Result's columns/rows,
`visualisation` the chart outcome's description-file path. The
`... if results else None` / `... if viz_result else None` conditionals are
present in the source: both fields are `None` whenever nothing was
retained. -/
structure TurnOutput where
  insights : String
  result_df : Option SqlSuccess
  visualisation : Option String
deriving Repr, DecidableEq

/-- Modelled from the spec: fills the value holes of the turn-output dict
(see `TurnOutput`). An error-shaped retained SQL result cannot reach this
point (the dispatch code crashes on it first), so only the success shape is
projected. -/
def assembleOutput (content : Option String) (results : Option SqlResult)
    (viz_result : Option VizResult) : TurnOutput :=
  { insights := content.getD "",
    result_df := match results with
      | some (.ok r) => some r
      | _ => none,
    visualisation := match viz_result with
      | some v => v.fig_path
      | none => none }

/-- The mutable locals of `main_agent` over one turn: the transcript, the
retained SQL result, the retained chart outcome, and the Chart Generator's
ambient state. -/
structure AgentState where
  messages : List Msg
  results : Option SqlResult
  viz_result : Option VizResult
  vst : VizState
deriving Repr, DecidableEq

/-- Dispatch of one tool invocation request (final.py lines 235-266).
Mirrors the source exactly: reading `call.function.arguments` with
`call.function` absent raises (`.error`); a falsy name appends the
missing-name tool message; `execute_sql_query` runs the Query Executor and
then the debug print `len(results['result_df']['rows'])` — which raises a
`KeyError` whenever the executor returned an error dict —  before appending
the serialised result; `execute_visualisation_code` runs the Chart
Generator on the latest retained result; any other name matches no branch,
so nothing at all is appended. -/
def dispatchCall (gen : CodeGen) (execCode : CodeExec) (db : DbExec)
    (st : AgentState) (call : ToolCall) : Except String AgentState :=
  match call.function with
  | none => .error "AttributeError: 'NoneType' object has no attribute 'arguments'"
  | some f =>
      if f.name = "" then
        .ok { st with
              messages := st.messages ++ [.tool call.id "Tool call missing name."] }
      else if f.name = "execute_sql_query" then
        let results := execute_sql_query db f.arguments.sql_query
        match results with
        | .error _ => .error "KeyError: 'result_df'"
        | .ok r =>
            .ok { st with
                  results := some (.ok r),
                  messages := st.messages
                    ++ [.tool call.id (dumpsSqlResult (some (.ok r)))] }
      else if f.name = "execute_visualisation_code" then
        let instructions := argsInstructions f.arguments
        let p := execute_visualisation_code gen execCode st.vst instructions st.results
        .ok { st with
              viz_result := some p.1,
              vst := p.2,
              messages := st.messages ++ [.tool call.id (dumpsVizResult p.1)] }
      else
        .ok st

/-- The `for call in msg.tool_calls` loop, propagating an uncaught Python
exception. -/
def dispatchAll (gen : CodeGen) (execCode : CodeExec) (db : DbExec) :
    List ToolCall → AgentState → Except String AgentState
  | [], st => .ok st
  | c :: cs, st =>
      match dispatchCall gen execCode db st c with
      | .error e => .error e
      | .ok st' => dispatchAll gen execCode db cs st'

/-- The `while True` loop of `main_agent` (final.py lines 220-277),
instrumented with fuel: `none` means the loop was still running when the
fuel ran out, `some (.error e)` an uncaught Python exception, and
`some (.ok out)` a normal return. Each round-trip sends the transcript to
the model, appends its message, and either dispatches the requested tools
and loops, or — when the response carries no tool invocation requests —
assembles and returns the turn output. -/
def runTurn (llm : LLM) (gen : CodeGen) (execCode : CodeExec) (db : DbExec) :
    Nat → AgentState → Option (Except String TurnOutput)
  | 0, _ => none
  | (fuel + 1), st =>
      let msg := llm st.messages
      let st' : AgentState := { st with messages := st.messages ++ [.assistant msg] }
      if msg.tool_calls.isEmpty then
        some (.ok (assembleOutput msg.content st'.results st'.viz_result))
      else
        match dispatchAll gen execCode db msg.tool_calls st' with
        | .error e => some (.error e)
        | .ok st'' => runTurn llm gen execCode db fuel st''

/-- The system prompt of `main_agent` (final.py lines 196-214); the two
sentence holes are modelled from the spec (§4.4): request a chart when
visualization adds value, and skip it for single-scalar answers. -/
def systemPrompt (schema : String) : String :=
  "You are an agent that answers questions about HDB resale prices."
    ++ " This is the schema to the resale db named `resale_data_2017_to_2025`: "
    ++ schema
    ++ " Flow: 1. If the query is just about the schema, answer directly."
    ++ " 2. Otherwise, generate a SQL query and call `execute_sql_query`."
    ++ " 3. Call the visualisation tool when a chart adds value."
    ++ " 4. If the answer is a single value, skip the visualisation."
    ++ " 5. Give insights based on the data and (if created) the visualisation."
    ++ " Notes: DO NOT redisplay tables or JSON filenames in markdown."
    ++ " JUST give insights. Current year: 2025."

/-- The initial transcript of a turn (final.py lines 195-216). -/
def initMsgs (schema user_input : String) : List Msg :=
  [.system (systemPrompt schema), .user user_input]

/-- The initial locals of a turn: `results, viz_result = None, None`
(final.py line 218). -/
def initState (schema user_input : String) (vst : VizState) : AgentState :=
  { messages := initMsgs schema user_input,
    results := none, viz_result := none, vst := vst }

/-- Model of `main_agent` (final.py lines 194-277), with fuel instrumenting the
unbounded `while True` loop. -/
def main_agent (llm : LLM) (gen : CodeGen) (execCode : CodeExec) (db : DbExec)
    (schema : String) (vst : VizState) (user_input : String) (fuel : Nat) :
    Option (Except String TurnOutput) :=
  runTurn llm gen execCode db fuel (initState schema user_input vst)

/-! ## Concrete oracles and states used in witnesses and counterexamples -/

/-- A code-generation oracle that always proposes the same snippet. -/
def gen0 : CodeGen := fun _ => "fig = px.line(df)"

/-- A code-execution oracle on which every snippet raises. -/
def exec0 : CodeExec := fun _ _ => .raised "boom"

/-- An engine on which every statement succeeds with an empty result set. -/
def db0 : DbExec := fun _ => .ok { description := none, rows := [] }

/-- An engine on which every statement raises. -/
def dbFail : DbExec := fun _ => .error "Parser Error: syntax error at or near SELEC"

/-- The Chart Generator state at process start. -/
def vst0 : VizState := { nextId := 0, fs := [] }

/-- The agent state at the top of a turn on a sample question. -/
def st0 : AgentState := initState "schema" "question" vst0

/-- A cursor return with 1500 rows, above the fetch cap. -/
def retBig : QueryReturn :=
  { description := some [{ name := "price" }],
    rows := List.replicate 1500 [Value.int 1] }

/-- An engine producing `retBig` for every statement. -/
def dbBig : DbExec := fun _ => .ok retBig

/-! ## C2: the 1000-row cap of the Query Executor -/

/-- C2: for every SQL statement on which `execute_sql_query` succeeds, the
returned result holds the first 1000 of the engine's rows — at most 1000,
with the remainder silently dropped and no error reported. -/
theorem C2_row_cap (db : DbExec) (q : Option String) (ret : QueryReturn)
    (hq : pyFalsyStr q = false) (hdb : db (q.getD "") = .ok ret) :
    execute_sql_query db q =
      .ok { columns := (ret.description.getD []).map (fun d => d.name),
            rows := ret.rows.take 1000 } ∧
    (ret.rows.take 1000).length ≤ 1000 := by
  refine ⟨?_, ?_⟩
  · simp [execute_sql_query, hq, runSql, hdb]
  · rw [List.length_take]
    exact min_le_left _ _

/-- Witness for C2 on an engine that yields 1500 rows. -/
theorem C2_row_cap_witness :
    pyFalsyStr (some "SELECT 1") = false ∧ dbBig "SELECT 1" = .ok retBig ∧
    (execute_sql_query dbBig (some "SELECT 1") =
       .ok { columns := (retBig.description.getD []).map (fun d => d.name),
             rows := retBig.rows.take 1000 } ∧
     (retBig.rows.take 1000).length ≤ 1000) :=
  ⟨by decide, rfl, C2_row_cap dbBig (some "SELECT 1") retBig (by decide) rfl⟩

/-! ## C3: blank or absent SQL statements -/

/-- An engine rejecting everything, used to observe that the data source is
consulted. -/
def dbBlankErr : DbExec := fun _ => .error "Parser Error"

/-- Counterexample to C3 as stated: for the whitespace-only statement
`" "`, the guard `if not sql_query` does not fire, execution is attempted
against the data source (the outcome depends on the engine), and the result
is not the input error. -/
theorem C3_counterexample :
    specBlankOrAbsent (some " ") = true ∧
    execute_sql_query db0 (some " ") ≠ execute_sql_query dbBlankErr (some " ") ∧
    execute_sql_query db0 (some " ") ≠ .error "No SQL query provided" := by
  refine ⟨by decide, by decide, by decide⟩

/-- C3 as amended: exactly the absent (`None`) and empty-string statements
yield the input error `{"error": "No SQL query provided"}` without the data
source being consulted; whitespace-only statements pass the guard and are
executed. -/
theorem C3_empty_or_absent (db db' : DbExec) (q : Option String)
    (h : pyFalsyStr q = true) :
    execute_sql_query db q = .error "No SQL query provided" ∧
    execute_sql_query db q = execute_sql_query db' q := by
  refine ⟨?_, ?_⟩ <;> simp [execute_sql_query, h]

/-- Witness for the amended C3 at the empty string. -/
theorem C3_empty_or_absent_witness :
    pyFalsyStr (some "") = true ∧
    (execute_sql_query db0 (some "") = .error "No SQL query provided" ∧
     execute_sql_query db0 (some "") = execute_sql_query dbBlankErr (some "")) :=
  ⟨by decide, C3_empty_or_absent db0 dbBlankErr (some "") (by decide)⟩

/-! ## Chart Generator lemmas -/

/-- Every call to `generate_visualisation` draws exactly one fresh
identifier, whatever its outcome. -/
theorem genViz_nextId (e : CodeExec) (s : VizState) (sr : Option SqlResult)
    (c : String) :
    (generate_visualisation e s sr c).2.nextId = s.nextId + 1 := by
  rcases hdf : dfOf sr with e' | df <;> simp [generate_visualisation, hdf]
  rcases he : e (cleanCode c) df with m | (_ | fig) <;> simp [he]

/-- The success path of `generate_visualisation`, fully described. -/
theorem genViz_success (e : CodeExec) (s : VizState) (r : SqlSuccess)
    (c : String) (fig : Fig)
    (he : e (cleanCode c) r = .finished (some fig)) :
    generate_visualisation e s (some (.ok r)) c =
      ({ success := true, uuid := some s.nextId, code := some (cleanCode c),
         fig_path := some (figJsonPath s.nextId),
         error := none, traceback := none },
       { nextId := s.nextId + 1,
         fs := (figJsonPath s.nextId, fig.json)
                 :: (imgPath s.nextId, fig.png) :: s.fs }) := by
  simp [generate_visualisation, dfOf, he]

/-! ## C5: successful chart generation persists both files under a fresh
identifier -/

/-- C5: a successful chart-generation attempt returns success with the
freshly drawn identifier, the cleaned accepted code and the path of the
chart-description file; both persisted files are in the filesystem when the
call returns; every call advances the identifier supply, so a later
successful call can never return this call's identifier. -/
theorem C5_success_artifacts (execCode : CodeExec) (st : VizState)
    (r : SqlSuccess) (python_code : String) (fig : Fig)
    (hexec : execCode (cleanCode python_code) r = .finished (some fig)) :
    generate_visualisation execCode st (some (.ok r)) python_code =
      ({ success := true, uuid := some st.nextId,
         code := some (cleanCode python_code),
         fig_path := some (figJsonPath st.nextId),
         error := none, traceback := none },
       { nextId := st.nextId + 1,
         fs := (figJsonPath st.nextId, fig.json)
                 :: (imgPath st.nextId, fig.png) :: st.fs }) ∧
    (imgPath st.nextId, fig.png)
        ∈ (generate_visualisation execCode st (some (.ok r)) python_code).2.fs ∧
    (figJsonPath st.nextId, fig.json)
        ∈ (generate_visualisation execCode st (some (.ok r)) python_code).2.fs ∧
    (∀ (e2 : CodeExec) (s2 : VizState) (sr2 : Option SqlResult) (c2 : String),
        (generate_visualisation e2 s2 sr2 c2).2.nextId = s2.nextId + 1) ∧
    (∀ (e2 : CodeExec) (r2 : SqlSuccess) (c2 : String) (fig2 : Fig),
        e2 (cleanCode c2) r2 = .finished (some fig2) →
        (generate_visualisation e2
            (generate_visualisation execCode st (some (.ok r)) python_code).2
            (some (.ok r2)) c2).1.uuid ≠ some st.nextId) := by
  have hmain := genViz_success execCode st r python_code fig hexec
  refine ⟨hmain, ?_, ?_, fun e2 s2 sr2 c2 => genViz_nextId e2 s2 sr2 c2, ?_⟩
  · rw [hmain]; simp
  · rw [hmain]; simp
  · intro e2 r2 c2 fig2 he2
    rw [hmain, genViz_success e2 _ r2 c2 fig2 he2]
    simp

/-- Concrete execution oracle for the C5 witness. -/
def execC5 : CodeExec := fun _ _ => .finished (some { png := "PNG", json := "FIGJSON" })

/-- Concrete query result for the C5 witness. -/
def rC5 : SqlSuccess := { columns := ["year"], rows := [[Value.int 2020]] }

/-- Concrete figure for the C5 witness. -/
def figC5 : Fig := { png := "PNG", json := "FIGJSON" }

/-- Concrete generator state for the C5 witness. -/
def vst7 : VizState := { nextId := 7, fs := [] }

/-- Witness for C5 at a concrete successful attempt. -/
theorem C5_success_artifacts_witness :
    execC5 (cleanCode "fig = px.line(df)") rC5 = .finished (some figC5) ∧
    (generate_visualisation execC5 vst7 (some (.ok rC5)) "fig = px.line(df)" =
      ({ success := true, uuid := some vst7.nextId,
         code := some (cleanCode "fig = px.line(df)"),
         fig_path := some (figJsonPath vst7.nextId),
         error := none, traceback := none },
       { nextId := vst7.nextId + 1,
         fs := (figJsonPath vst7.nextId, figC5.json)
                 :: (imgPath vst7.nextId, figC5.png) :: vst7.fs }) ∧
    (imgPath vst7.nextId, figC5.png)
        ∈ (generate_visualisation execC5 vst7 (some (.ok rC5)) "fig = px.line(df)").2.fs ∧
    (figJsonPath vst7.nextId, figC5.json)
        ∈ (generate_visualisation execC5 vst7 (some (.ok rC5)) "fig = px.line(df)").2.fs ∧
    (∀ (e2 : CodeExec) (s2 : VizState) (sr2 : Option SqlResult) (c2 : String),
        (generate_visualisation e2 s2 sr2 c2).2.nextId = s2.nextId + 1) ∧
    (∀ (e2 : CodeExec) (r2 : SqlSuccess) (c2 : String) (fig2 : Fig),
        e2 (cleanCode c2) r2 = .finished (some fig2) →
        (generate_visualisation e2
            (generate_visualisation execC5 vst7 (some (.ok rC5)) "fig = px.line(df)").2
            (some (.ok r2)) c2).1.uuid ≠ some vst7.nextId)) :=
  ⟨rfl, C5_success_artifacts execC5 vst7 rC5 "fig = px.line(df)" figC5 rfl⟩

/-! ## C6: tool calls with unresolvable names -/

/-- A tool invocation request naming an unknown tool. -/
def fooCall : ToolCall :=
  { id := "call_1",
    function := some { name := "foo", arguments := { sql_query := none, instructions := none } } }

/-- Counterexample to C6 as stated: dispatching a request whose
present-but-unknown name is `"foo"` matches no branch, so the agent state —
in particular the transcript — is returned unchanged: no tool-result
message reporting the omission is appended. -/
theorem C6_counterexample :
    (fooCall.function.map fun f => f.name) = some "foo" ∧
    dispatchCall gen0 exec0 db0 st0 fooCall = .ok st0 :=
  ⟨rfl, rfl⟩

/-- C6 as amended: a tool call with a missing/empty name gets the
tool-result message "Tool call missing name." appended and the turn
continues; a present-but-unknown name is silently ignored — the turn
continues with no message appended at all. -/
theorem C6_unknown_tool (gen : CodeGen) (execCode : CodeExec) (db : DbExec)
    (st : AgentState) (call : ToolCall) (f : ToolCallFn)
    (hf : call.function = some f) :
    (f.name = "" →
       dispatchCall gen execCode db st call =
         .ok { st with
               messages := st.messages
                 ++ [.tool call.id "Tool call missing name."] }) ∧
    (f.name ≠ "" → f.name ≠ "execute_sql_query" →
     f.name ≠ "execute_visualisation_code" →
       dispatchCall gen execCode db st call = .ok st) := by
  constructor
  · intro h
    simp [dispatchCall, hf, h]
  · intro h1 h2 h3
    simp [dispatchCall, hf, h1, h2, h3]

/-- A tool invocation request whose `function` carries an empty name. -/
def noNameCall : ToolCall :=
  { id := "call_2",
    function := some { name := "", arguments := { sql_query := none, instructions := none } } }

/-- Witness for the amended C6 in both cases. -/
theorem C6_unknown_tool_witness :
    dispatchCall gen0 exec0 db0 st0 noNameCall =
      .ok { st0 with
            messages := st0.messages ++ [.tool noNameCall.id "Tool call missing name."] } ∧
    dispatchCall gen0 exec0 db0 st0 fooCall = .ok st0 :=
  ⟨(C6_unknown_tool gen0 exec0 db0 st0 noNameCall _ rfl).1 rfl,
   (C6_unknown_tool gen0 exec0 db0 st0 fooCall _ rfl).2
     (by decide) (by decide) (by decide)⟩

/-! ## C8: a model answering directly on the first round-trip -/

/-- C8: if the model's first response carries no tool invocation requests,
`main_agent` returns after that single round-trip (any fuel at least 1
gives the same output), and both `result_df` and `visualisation` are
absent. -/
theorem C8_direct_answer (llm : LLM) (gen : CodeGen) (execCode : CodeExec)
    (db : DbExec) (schema user_input : String) (vst : VizState) (fuel : Nat)
    (h : (llm (initMsgs schema user_input)).tool_calls = []) :
    main_agent llm gen execCode db schema vst user_input (fuel + 1) =
      some (.ok { insights := ((llm (initMsgs schema user_input)).content).getD "",
                  result_df := none, visualisation := none }) := by
  unfold main_agent runTurn
  simp [initState, h, assembleOutput]

/-- A model that always answers directly. -/
def llmQuiet : LLM := fun _ => { content := some "All good.", tool_calls := [] }

/-- Witness for C8 on a model answering directly, with fuel 1. -/
theorem C8_direct_answer_witness :
    (llmQuiet (initMsgs "schema" "q")).tool_calls = [] ∧
    main_agent llmQuiet gen0 exec0 db0 "schema" vst0 "q" (0 + 1) =
      some (.ok { insights := ((llmQuiet (initMsgs "schema" "q")).content).getD "",
                  result_df := none, visualisation := none }) :=
  ⟨rfl, C8_direct_answer llmQuiet gen0 exec0 db0 "schema" "q" vst0 0 rfl⟩

/-! ## C10: the evaluation scope of generated charting code -/

/-- Counterexample to C10 as stated: CPython's `exec` inserts the builtins
into the empty globals dict, so the generated code can resolve `open`
(filesystem) and `__import__` (module/network access), neither of which is
among the explicitly injected names. -/
theorem C10_counterexample :
    ("open" ∈ execScope [] vizLocalNames ∧ "open" ∉ vizLocalNames) ∧
    ("__import__" ∈ execScope [] vizLocalNames ∧ "__import__" ∉ vizLocalNames) := by
  decide

/-- C10 as amended: the evaluation scope of the generated code consists of
exactly the injected handles (`pd`, `df`, `px`, `go`) together with the
Python builtins — module globals are excluded, but builtins such as `open`
and `__import__` remain reachable: a trust boundary, not a sandbox. -/
theorem C10_scope_is_locals_and_builtins :
    execScope [] vizLocalNames = vizLocalNames ++ pythonBuiltinNames := by
  decide

/-! ## C1: a SQL execution error crashes the turn -/

/-- A model that requests a SQL tool call with malformed SQL. -/
def llmSql : LLM := fun _ =>
  { content := none,
    tool_calls := [{ id := "call_1",
                     function := some
                       { name := "execute_sql_query",
                         arguments := { sql_query := some "SELEC * FROM resale",
                                        instructions := none } } }] }

/-- C1 fails on the code: although the Query Executor dutifully returns the
SQL failure as structured error data, the debug print at final.py line 251
immediately subscripts `results['result_df']`, so `main_agent` dies with an
uncaught `KeyError` instead of producing a degraded turn output. -/
theorem C1_sql_error_crashes :
    execute_sql_query dbFail (some "SELEC * FROM resale") =
      .error "Error executing SQL query: Parser Error: syntax error at or near SELEC" ∧
    main_agent llmSql gen0 exec0 dbFail "schema" vst0 "q" 5 =
      some (.error "KeyError: 'result_df'") := by
  refine ⟨by decide, by decide⟩

/-! ## C9: the outer loop has no iteration cap -/

/-- Helper: a normal return of the turn loop requires a transcript on which
the model responds without tool calls. -/
theorem runTurn_ok_no_tool_calls (llm : LLM) (gen : CodeGen)
    (execCode : CodeExec) (db : DbExec) :
    ∀ (fuel : Nat) (st : AgentState) (out : TurnOutput),
      runTurn llm gen execCode db fuel st = some (.ok out) →
      ∃ ms, (llm ms).tool_calls = [] := by
  intro fuel
  induction fuel with
  | zero =>
      intro st out h
      simp [runTurn] at h
  | succ n ih =>
      intro st out h
      simp only [runTurn] at h
      split at h
      · next hc => exact ⟨st.messages, by simpa using hc⟩
      · next hc =>
          split at h
          · next e he => simp at h
          · next st'' hd => exact ih st'' out h

/-- C9: `main_agent` returns a turn output only when some model response
carries no tool invocation requests; hence against a model that requests at
least one tool call on every round-trip, no amount of fuel makes the loop
produce a turn output — the `while True` loop has no iteration cap of its
own. -/
theorem C9_no_iteration_cap :
    (∀ (llm : LLM) (gen : CodeGen) (execCode : CodeExec) (db : DbExec)
       (schema : String) (vst : VizState) (user_input : String)
       (fuel : Nat) (out : TurnOutput),
       main_agent llm gen execCode db schema vst user_input fuel = some (.ok out) →
       ∃ ms, (llm ms).tool_calls = []) ∧
    (∀ (llm : LLM), (∀ ms, (llm ms).tool_calls ≠ []) →
       ∀ (gen : CodeGen) (execCode : CodeExec) (db : DbExec)
         (schema : String) (vst : VizState) (user_input : String)
         (fuel : Nat) (out : TurnOutput),
         main_agent llm gen execCode db schema vst user_input fuel ≠ some (.ok out)) := by
  constructor
  · intro llm gen execCode db schema vst user_input fuel out h
    exact runTurn_ok_no_tool_calls llm gen execCode db fuel _ out h
  · intro llm hllm gen execCode db schema vst user_input fuel out h
    obtain ⟨ms, hms⟩ := runTurn_ok_no_tool_calls llm gen execCode db fuel _ out h
    exact hllm ms hms

/-- A model that requests an (unknown-named) tool call on every
round-trip. -/
def llmLoop : LLM := fun _ => { content := none, tool_calls := [fooCall] }

/-- Witness for C9 against a model that never stops calling tools. -/
theorem C9_no_iteration_cap_witness :
    (∀ ms, (llmLoop ms).tool_calls ≠ []) ∧
    main_agent llmLoop gen0 exec0 db0 "schema" vst0 "q" 4 ≠
      some (.ok { insights := "", result_df := none, visualisation := none }) :=
  ⟨fun ms => by simp [llmLoop],
   C9_no_iteration_cap.2 llmLoop (fun ms => by simp [llmLoop])
     gen0 exec0 db0 "schema" vst0 "q" 4
     { insights := "", result_df := none, visualisation := none }⟩

/-! ## C4: exhaustion of the chart-generation retry budget -/

/-- Helper: every failing outcome of `generate_visualisation` carries no
artifact path, a present `error` field and an unchanged filesystem. -/
theorem genViz_fail_shape (e : CodeExec) (s : VizState) (sr : Option SqlResult)
    (c : String)
    (h : (generate_visualisation e s sr c).1.success = false) :
    (generate_visualisation e s sr c).1.fig_path = none ∧
    (generate_visualisation e s sr c).1.error.isSome = true ∧
    (generate_visualisation e s sr c).2.fs = s.fs := by
  rcases hdf : dfOf sr with e' | df
  · simp [generate_visualisation, hdf]
  · rcases he : e (cleanCode c) df with m | mf
    · simp [generate_visualisation, hdf, he]
    · rcases mf with _ | fig
      · simp [generate_visualisation, hdf, he]
      · exfalso
        rw [generate_visualisation] at h
        simp [hdf, he] at h

/-- A code-generation oracle that always replies with a raising snippet. -/
def genRaise : CodeGen := fun _ => "raise Exception()"

/-- A code-execution oracle on which every snippet raises with an empty
exception message (Python `str(Exception())` is the empty string). -/
def execEmptyMsg : CodeExec := fun _ _ => .raised ""

/-- A successful retained SQL result to chart. -/
def srOk : Option SqlResult := some (.ok { columns := ["c"], rows := [[Value.int 1]] })

/-- Counterexample to C4 as stated: when the generated code raises an
exception whose message is empty on every attempt, the final failure
outcome's `error` field is the empty string — present but empty,
contradicting the claimed non-empty error field. -/
theorem C4_counterexample :
    (execute_visualisation_code genRaise execEmptyMsg vst0 "plot it" srOk).1.success = false ∧
    (execute_visualisation_code genRaise execEmptyMsg vst0 "plot it" srOk).1.fig_path = none ∧
    (execute_visualisation_code genRaise execEmptyMsg vst0 "plot it" srOk).1.error = some "" := by
  refine ⟨by decide, by decide, by decide⟩


/-- Helper: one failing iteration of the attempt loop, named by its
intermediate values. -/
theorem vizLoop_step_fail (gen : CodeGen) (execCode : CodeExec)
    (sql_result : Option SqlResult) (r : Nat) (msgs : List ChatMsg)
    (s : VizState) (c : String) (p : VizResult × VizState)
    (hc : c = pyStrip (gen msgs))
    (hp : p = generate_visualisation execCode s sql_result c)
    (hfail : p.1.success = false) :
    vizLoop gen execCode sql_result (r + 1) msgs s =
      ((vizLoop gen execCode sql_result r (msgs ++ [retryMsg p.1 c]) p.2).1,
       (vizLoop gen execCode sql_result r (msgs ++ [retryMsg p.1 c]) p.2).2.1,
       (vizLoop gen execCode sql_result r (msgs ++ [retryMsg p.1 c]) p.2).2.2.1,
       (vizLoop gen execCode sql_result r (msgs ++ [retryMsg p.1 c]) p.2).2.2.2 + 1) := by
  subst hc hp
  simp only [vizLoop]
  rw [if_neg (by simp [hfail])]

/-- Helper: the last failing iteration of the attempt loop: the loop guard
expires and the last failure is returned, after the corrective message was
still appended. -/
theorem vizLoop_base_fail (gen : CodeGen) (execCode : CodeExec)
    (sql_result : Option SqlResult) (msgs : List ChatMsg)
    (s : VizState) (c : String) (p : VizResult × VizState)
    (hc : c = pyStrip (gen msgs))
    (hp : p = generate_visualisation execCode s sql_result c)
    (hfail : p.1.success = false) :
    vizLoop gen execCode sql_result 0 msgs s =
      (p.1, p.2, msgs ++ [retryMsg p.1 c], 1) := by
  subst hc hp
  simp only [vizLoop]
  rw [if_neg (by simp [hfail])]

/-- C4 as amended: when every attempt fails, `execute_visualisation_code`
makes exactly 3 attempts, appends the corrective message (error plus
failing code) to the side conversation after each failure, and returns the
third attempt's failure outcome: success = false, no artifact path, and an
`error` field that is present (it equals the failure's message, which may
be empty when the raised exception has an empty message). -/
theorem C4_exhausted_retries (gen : CodeGen) (execCode : CodeExec)
    (sql_result : Option SqlResult) (st : VizState) (instructions : String)
    (msgs0 : List ChatMsg) (c1 : String) (p1 : VizResult × VizState)
    (m1 : List ChatMsg) (c2 : String) (p2 : VizResult × VizState)
    (m2 : List ChatMsg) (c3 : String) (p3 : VizResult × VizState)
    (m3 : List ChatMsg)
    (Hfail : ∀ (ms : List ChatMsg) (s : VizState),
        (generate_visualisation execCode s sql_result (pyStrip (gen ms))).1.success = false)
    (h0 : msgs0 = [{ role := "user", content := vizPrompt instructions sql_result }])
    (hc1 : c1 = pyStrip (gen msgs0))
    (hp1 : p1 = generate_visualisation execCode st sql_result c1)
    (hm1 : m1 = msgs0 ++ [retryMsg p1.1 c1])
    (hc2 : c2 = pyStrip (gen m1))
    (hp2 : p2 = generate_visualisation execCode p1.2 sql_result c2)
    (hm2 : m2 = m1 ++ [retryMsg p2.1 c2])
    (hc3 : c3 = pyStrip (gen m2))
    (hp3 : p3 = generate_visualisation execCode p2.2 sql_result c3)
    (hm3 : m3 = m2 ++ [retryMsg p3.1 c3]) :
    vizLoop gen execCode sql_result 2 msgs0 st = (p3.1, p3.2, m3, 3) ∧
    execute_visualisation_code gen execCode st instructions sql_result = (p3.1, p3.2) ∧
    p3.1.success = false ∧ p3.1.fig_path = none ∧ p3.1.error.isSome = true := by
  have f1 : p1.1.success = false := by rw [hp1, hc1]; exact Hfail msgs0 st
  have f2 : p2.1.success = false := by rw [hp2, hc2]; exact Hfail m1 p1.2
  have f3 : p3.1.success = false := by rw [hp3, hc3]; exact Hfail m2 p2.2
  have e0 : vizLoop gen execCode sql_result 0 m2 p2.2 = (p3.1, p3.2, m3, 1) := by
    rw [vizLoop_base_fail gen execCode sql_result m2 p2.2 c3 p3 hc3 hp3 f3, hm3]
  have e1 : vizLoop gen execCode sql_result 1 m1 p1.2 = (p3.1, p3.2, m3, 2) := by
    rw [vizLoop_step_fail gen execCode sql_result 0 m1 p1.2 c2 p2 hc2 hp2 f2,
        ← hm2, e0]
  have e2 : vizLoop gen execCode sql_result 2 msgs0 st = (p3.1, p3.2, m3, 3) := by
    rw [vizLoop_step_fail gen execCode sql_result 1 msgs0 st c1 p1 hc1 hp1 f1,
        ← hm1, e1]
  have f3' : (generate_visualisation execCode p2.2 sql_result c3).1.success = false := by
    rw [← hp3]; exact f3
  refine ⟨e2, ?_, f3, ?_, ?_⟩
  · simp only [execute_visualisation_code]
    rw [← h0, e2]
  · rw [hp3]
    exact (genViz_fail_shape execCode p2.2 sql_result c3 f3').1
  · rw [hp3]
    exact (genViz_fail_shape execCode p2.2 sql_result c3 f3').2.1

/-- The starting side conversation of the concrete failing C4 run. -/
def m0C4 : List ChatMsg := [{ role := "user", content := vizPrompt "plot it" srOk }]

/-- Attempt 1 code of the concrete failing C4 run. -/
def c1C4 : String := pyStrip (genRaise m0C4)

/-- Attempt 1 outcome of the concrete failing C4 run. -/
def p1C4 : VizResult × VizState := generate_visualisation execEmptyMsg vst0 srOk c1C4

/-- Conversation after attempt 1 of the concrete failing C4 run. -/
def m1C4 : List ChatMsg := m0C4 ++ [retryMsg p1C4.1 c1C4]

/-- Attempt 2 code of the concrete failing C4 run. -/
def c2C4 : String := pyStrip (genRaise m1C4)

/-- Attempt 2 outcome of the concrete failing C4 run. -/
def p2C4 : VizResult × VizState := generate_visualisation execEmptyMsg p1C4.2 srOk c2C4

/-- Conversation after attempt 2 of the concrete failing C4 run. -/
def m2C4 : List ChatMsg := m1C4 ++ [retryMsg p2C4.1 c2C4]

/-- Attempt 3 code of the concrete failing C4 run. -/
def c3C4 : String := pyStrip (genRaise m2C4)

/-- Attempt 3 outcome of the concrete failing C4 run. -/
def p3C4 : VizResult × VizState := generate_visualisation execEmptyMsg p2C4.2 srOk c3C4

/-- Conversation after attempt 3 of the concrete failing C4 run. -/
def m3C4 : List ChatMsg := m2C4 ++ [retryMsg p3C4.1 c3C4]

/-- Witness for the amended C4 on a concrete always-failing run. -/
theorem C4_exhausted_retries_witness :
    (∀ (ms : List ChatMsg) (s : VizState),
        (generate_visualisation execEmptyMsg s srOk (pyStrip (genRaise ms))).1.success = false) ∧
    (vizLoop genRaise execEmptyMsg srOk 2 m0C4 vst0 = (p3C4.1, p3C4.2, m3C4, 3) ∧
     execute_visualisation_code genRaise execEmptyMsg vst0 "plot it" srOk = (p3C4.1, p3C4.2) ∧
     p3C4.1.success = false ∧ p3C4.1.fig_path = none ∧ p3C4.1.error.isSome = true) :=
  ⟨fun _ _ => rfl,
   C4_exhausted_retries genRaise execEmptyMsg srOk vst0 "plot it"
     m0C4 c1C4 p1C4 m1C4 c2C4 p2C4 m2C4 c3C4 p3C4 m3C4
     (fun _ _ => rfl) rfl rfl rfl rfl rfl rfl rfl rfl rfl rfl⟩

/-! ## C7: no chart artifact without a prior successful query result -/

/-- Is the retained tool-level SQL result a success dict? -/
def hasOkResult : Option SqlResult → Bool
  | some (.ok _) => true
  | _ => false

/-- Helper: with no successful retained result, `generate_visualisation`
fails while rebuilding the dataframe, before any file is written. -/
theorem genViz_noResult_fails (e : CodeExec) (s : VizState)
    (sr : Option SqlResult) (c : String) (h : hasOkResult sr = false) :
    (generate_visualisation e s sr c).1.success = false ∧
    (generate_visualisation e s sr c).2.fs = s.fs := by
  rcases sr with _ | r
  · simp [generate_visualisation, dfOf]
  · rcases r with r | msg
    · simp [hasOkResult] at h
    · simp [generate_visualisation, dfOf]

/-- Helper: with no successful retained result, the whole attempt loop
fails and leaves the filesystem untouched. -/
theorem vizLoop_noResult (gen : CodeGen) (execCode : CodeExec)
    (sr : Option SqlResult) (h : hasOkResult sr = false) :
    ∀ (k : Nat) (msgs : List ChatMsg) (s : VizState),
      (vizLoop gen execCode sr k msgs s).1.success = false ∧
      (vizLoop gen execCode sr k msgs s).1.fig_path = none ∧
      (vizLoop gen execCode sr k msgs s).2.1.fs = s.fs := by
  intro k
  induction k with
  | zero =>
      intro msgs s
      have hf := genViz_noResult_fails execCode s sr (pyStrip (gen msgs)) h
      have hshape := genViz_fail_shape execCode s sr (pyStrip (gen msgs)) hf.1
      rw [vizLoop_base_fail gen execCode sr msgs s (pyStrip (gen msgs))
            (generate_visualisation execCode s sr (pyStrip (gen msgs))) rfl rfl hf.1]
      exact ⟨hf.1, hshape.1, hf.2⟩
  | succ n ih =>
      intro msgs s
      have hf := genViz_noResult_fails execCode s sr (pyStrip (gen msgs)) h
      rw [vizLoop_step_fail gen execCode sr n msgs s (pyStrip (gen msgs))
            (generate_visualisation execCode s sr (pyStrip (gen msgs))) rfl rfl hf.1]
      have hi := ih (msgs ++
          [retryMsg (generate_visualisation execCode s sr (pyStrip (gen msgs))).1
            (pyStrip (gen msgs))])
          (generate_visualisation execCode s sr (pyStrip (gen msgs))).2
      exact ⟨hi.1, hi.2.1, hi.2.2.trans hf.2⟩

/-- C7: dispatching the visualisation tool while no successful SQL result
is retained (none, or an error dict) leaves the filesystem unchanged — no
artifact file is written — and retains a failed chart outcome with no
artifact path: a chart artifact can only be created after a Query Result
was produced earlier in the same turn. -/
theorem C7_no_chart_without_result (gen : CodeGen) (execCode : CodeExec)
    (db : DbExec) (st : AgentState) (call : ToolCall) (f : ToolCallFn)
    (hf : call.function = some f)
    (hname : f.name = "execute_visualisation_code")
    (hres : hasOkResult st.results = false) :
    dispatchCall gen execCode db st call =
      .ok { st with
            viz_result := some (execute_visualisation_code gen execCode st.vst
                (argsInstructions f.arguments) st.results).1,
            vst := (execute_visualisation_code gen execCode st.vst
                (argsInstructions f.arguments) st.results).2,
            messages := st.messages
              ++ [.tool call.id (dumpsVizResult
                    (execute_visualisation_code gen execCode st.vst
                      (argsInstructions f.arguments) st.results).1)] } ∧
    (execute_visualisation_code gen execCode st.vst
        (argsInstructions f.arguments) st.results).1.success = false ∧
    (execute_visualisation_code gen execCode st.vst
        (argsInstructions f.arguments) st.results).1.fig_path = none ∧
    (execute_visualisation_code gen execCode st.vst
        (argsInstructions f.arguments) st.results).2.fs = st.vst.fs := by
  have hl := vizLoop_noResult gen execCode st.results hres 2
      [{ role := "user",
         content := vizPrompt (argsInstructions f.arguments) st.results }] st.vst
  refine ⟨?_, ?_, ?_, ?_⟩
  · simp [dispatchCall, hf, hname]
  · simp only [execute_visualisation_code]
    exact hl.1
  · simp only [execute_visualisation_code]
    exact hl.2.1
  · simp only [execute_visualisation_code]
    exact hl.2.2

/-- A tool invocation request for the visualisation tool. -/
def vizCall : ToolCall :=
  { id := "call_3",
    function := some { name := "execute_visualisation_code",
                       arguments := { sql_query := none, instructions := some "plot" } } }

/-- Witness for C7 at the start-of-turn state, where no SQL result has been
retained yet. -/
theorem C7_no_chart_without_result_witness :
    dispatchCall gen0 exec0 db0 st0 vizCall =
      .ok { st0 with
            viz_result := some (execute_visualisation_code gen0 exec0 st0.vst
                (argsInstructions { sql_query := none, instructions := some "plot" })
                st0.results).1,
            vst := (execute_visualisation_code gen0 exec0 st0.vst
                (argsInstructions { sql_query := none, instructions := some "plot" })
                st0.results).2,
            messages := st0.messages
              ++ [.tool vizCall.id (dumpsVizResult
                    (execute_visualisation_code gen0 exec0 st0.vst
                      (argsInstructions { sql_query := none, instructions := some "plot" })
                      st0.results).1)] } ∧
    (execute_visualisation_code gen0 exec0 st0.vst
        (argsInstructions { sql_query := none, instructions := some "plot" })
        st0.results).1.success = false ∧
    (execute_visualisation_code gen0 exec0 st0.vst
        (argsInstructions { sql_query := none, instructions := some "plot" })
        st0.results).1.fig_path = none ∧
    (execute_visualisation_code gen0 exec0 st0.vst
        (argsInstructions { sql_query := none, instructions := some "plot" })
        st0.results).2.fs = st0.vst.fs :=
  C7_no_chart_without_result gen0 exec0 db0 st0 vizCall
    { name := "execute_visualisation_code",
      arguments := { sql_query := none, instructions := some "plot" } }
    rfl rfl rfl

end AgenticDemo
